import Mathlib

/-!
Shallow embedding of src/src/lib/components/Swap/SwapButton.tsx.

The file is a React component orchestrating approval, permit and swap
submission for a single trade.  We embed its pure derivations
(the actionProps memo, the onConfirm promise chain, the activeTrade
selector and the dialog render guard) as Lean functions over explicit
state, and prove the frozen claims about them.
-/

namespace SwapButton

/-- Currency as consumed by the component: a symbol (rendered in the
needs-approval label) and the isToken flag used when looking up the
pending-approval hash. -/
structure Currency where
  symbol : Nat
  isToken : Bool
deriving DecidableEq, Repr

/-- CurrencyAmount: an amount of a given currency.  The component only
compares amounts with lessThan and threads amounts into the transaction
record. -/
structure CurrencyAmount where
  currency : Currency
  amount : Nat
deriving DecidableEq, Repr

/-- The lessThan comparison used in the insufficient-funds check
(inputCurrencyBalance.lessThan(inputCurrencyAmount)). -/
def CurrencyAmount.lessThan (a b : CurrencyAmount) : Bool :=
  decide (a.amount < b.amount)

/-- A trade quote.  The component treats the trade itself opaquely (it is
snapshotted into activeTrade and handed to the summary dialog), so an
identifier suffices. -/
structure Trade where
  id : Nat
deriving DecidableEq, Repr

/-- Trade type from useSwapTradeType: exact-input or exact-output. -/
inductive TradeType where
  | exactInput
  | exactOutput
deriving DecidableEq, Repr

/-- The transaction response returned by a successful swapCallback; the
component reads response.hash. -/
structure TxResponse where
  hash : Nat
deriving DecidableEq, Repr

/-- TransactionType from lib/state/transactions; only SWAP is used here. -/
inductive TransactionType where
  | SWAP
deriving DecidableEq, Repr

/-- The record passed to addTransaction on a successful swap. -/
structure TransactionInfo where
  response : TxResponse
  type : TransactionType
  tradeType : TradeType
  inputCurrencyAmount : CurrencyAmount
  outputCurrencyAmount : CurrencyAmount
deriving DecidableEq, Repr

/-- Message content of an action descriptor, as built in the two approval
branches of actionProps. -/
inductive Message where
  | allowSymbolFirst (symbol : Nat)
  | approveSymbolFirst (symbol : Nat)
  | approvalPendingLink (hash : Option Nat)
deriving DecidableEq, Repr

/-- Icon slot of an action descriptor; only Spinner is ever supplied. -/
inductive Icon where
  | spinner
deriving DecidableEq, Repr

/-- Click handler carried by an action descriptor; both approval branches
attach handleApproveOrPermit. -/
inductive ClickHandler where
  | handleApproveOrPermit
deriving DecidableEq, Repr

/-- Button label (the children of the action) supplied by the approval
branches: Allow when the token supports permits, Approve otherwise. -/
inductive Label where
  | allow
  | approve
deriving DecidableEq, Repr

/-- The action field of ActionButtonProps as populated by actionProps. -/
structure ActionDescriptor where
  message : Message
  icon : Option Icon := none
  onClick : ClickHandler
  children : Label
deriving DecidableEq, Repr

/-- The Partial ActionButtonProps value returned by the actionProps memo:
an optional disabled override and an optional action descriptor.  The
empty override (ready state) leaves both at their defaults. -/
structure ActionButtonOverride where
  disabled : Bool := false
  action : Option ActionDescriptor := none
deriving DecidableEq, Repr

/-- The inputs the actionProps memo closes over. -/
structure ActionPropsInput where
  disabled : Bool
  chainId : Option Nat
  loadingSignature : Bool
  inputCurrencyAmount : Option CurrencyAmount
  inputCurrencyBalance : Option CurrencyAmount
  notApproved : Bool
  pendingApproval : Bool
  supportsPermit : Bool
  inputCurrency : Option Currency
  approvalCurrencyAmount : Option CurrencyAmount
  approvalHash : Option Nat
deriving DecidableEq, Repr

/-- The JavaScript falsiness test !chainId (true when chainId is absent
or zero). -/
def chainIdFalsy (chainId : Option Nat) : Bool :=
  match chainId with
  | none => true
  | some c => decide (c = 0)

/-- The insufficient-funds conjunct of the first guard:
inputCurrencyAmount && inputCurrencyBalance &&
inputCurrencyBalance.lessThan(inputCurrencyAmount).  It only fires when
both the amount and the balance are present. -/
def insufficientFunds (inputCurrencyAmount inputCurrencyBalance : Option CurrencyAmount) : Bool :=
  match inputCurrencyAmount, inputCurrencyBalance with
  | some amt, some bal => bal.lessThan amt
  | _, _ => false

/-- The actionProps memo of SwapButton, branch for branch.  The
needs-approval branch asserts (tiny-invariant) that a currency is
available; we model the thrown invariant as the none result. -/
def actionProps (i : ActionPropsInput) : Option ActionButtonOverride :=
  if i.disabled || chainIdFalsy i.chainId || i.loadingSignature
      || insufficientFunds i.inputCurrencyAmount i.inputCurrencyBalance then
    some { disabled := true }
  else if i.notApproved then
    match i.inputCurrency.orElse (fun _ => i.approvalCurrencyAmount.map (·.currency)) with
    | none => none
    | some currency =>
      some { action := some {
        message := if i.supportsPermit then Message.allowSymbolFirst currency.symbol
                   else Message.approveSymbolFirst currency.symbol
        onClick := ClickHandler.handleApproveOrPermit
        children := if i.supportsPermit then Label.allow else Label.approve } }
  else if i.pendingApproval then
    some { disabled := true
           action := some {
             message := Message.approvalPendingLink i.approvalHash
             icon := some Icon.spinner
             onClick := ClickHandler.handleApproveOrPermit
             children := Label.approve } }
  else
    some {}

/-- The tail of actionProps after the first guard: the needs-approval,
approval-pending and ready branches, written out separately so that the
fall-through behaviour of the insufficient-funds check can be stated. -/
def approvalBranches (i : ActionPropsInput) : Option ActionButtonOverride :=
  if i.notApproved then
    match i.inputCurrency.orElse (fun _ => i.approvalCurrencyAmount.map (·.currency)) with
    | none => none
    | some currency =>
      some { action := some {
        message := if i.supportsPermit then Message.allowSymbolFirst currency.symbol
                   else Message.approveSymbolFirst currency.symbol
        onClick := ClickHandler.handleApproveOrPermit
        children := if i.supportsPermit then Label.allow else Label.approve } }
  else if i.pendingApproval then
    some { disabled := true
           action := some {
             message := Message.approvalPendingLink i.approvalHash
             icon := some Icon.spinner
             onClick := ClickHandler.handleApproveOrPermit
             children := Label.approve } }
  else
    some {}

/-- Outcome of invoking swapCallback: the promise resolves with a
transaction response or rejects (user declined, or submission error). -/
inductive SwapOutcome where
  | ok (response : TxResponse)
  | err
deriving DecidableEq, Repr

/-- The external state onConfirm touches: the displayTxHash atom, the
transaction log written through addTransaction, the activeTrade snapshot,
and a counter of errors swallowed by the catch handler (console.log). -/
structure ConfirmState where
  displayTxHash : Option Nat
  txLog : List TransactionInfo
  activeTrade : Option Trade
  loggedErrors : Nat
deriving DecidableEq, Repr

/-- The onConfirm callback.  swapCallback?.() short-circuits the whole
promise chain when the callback is absent, so then, catch and finally all
run only when swapCallback exists.  On resolution the hash is published
to displayTxHash first; then the invariant on the two amounts is checked;
on success a SWAP record is appended; a rejection or a thrown invariant
lands in the catch handler, which only logs; finally clears activeTrade. -/
def onConfirm (swapCallback : Option SwapOutcome) (tradeType : TradeType)
    (inputCurrencyAmount outputCurrencyAmount : Option CurrencyAmount)
    (s : ConfirmState) : ConfirmState :=
  match swapCallback with
  | none => s
  | some SwapOutcome.err =>
    { s with loggedErrors := s.loggedErrors + 1, activeTrade := none }
  | some (SwapOutcome.ok response) =>
    let s1 := { s with displayTxHash := some response.hash }
    match inputCurrencyAmount, outputCurrencyAmount with
    | some ia, some oa =>
      { s1 with
        txLog := s1.txLog ++ [{ response := response, type := TransactionType.SWAP,
                                tradeType := tradeType, inputCurrencyAmount := ia,
                                outputCurrencyAmount := oa }]
        activeTrade := none }
    | _, _ =>
      { s1 with loggedErrors := s1.loggedErrors + 1, activeTrade := none }

/-- The useEffect updater run on every change of the live trade quote:
setActiveTrade((activeTrade) => activeTrade && trade.trade).  A set
snapshot is replaced by the live trade; an absent one stays absent. -/
def updateActiveTrade (activeTrade liveTrade : Option Trade) : Option Trade :=
  match activeTrade with
  | none => none
  | some _ => liveTrade

/-- The primary button click: onClick={() => setActiveTrade(trade.trade)}
stores the live trade present at click time. -/
def reviewSwapClick (liveTrade : Option Trade) : Option Trade :=
  liveTrade

/-- What the dialog subtree renders: the snapshot trade handed to
SummaryDialog together with its confirm action. -/
structure DialogRender where
  trade : Trade
  hasConfirmAction : Bool
deriving DecidableEq, Repr

/-- The conditional render activeTrade && (Dialog ... SummaryDialog ...):
the dialog exists exactly when activeTrade is set, and shows that trade
with the onConfirm action wired in. -/
def renderDialog (activeTrade : Option Trade) : Option DialogRender :=
  activeTrade.map (fun t => { trade := t, hasConfirmAction := true })

/-- The onClose handler of the dialog: () => setActiveTrade(undefined). -/
def dialogOnClose (_activeTrade : Option Trade) : Option Trade :=
  none

/-- Modelled from the spec: the AllowanceAndPermitService
(useApproveAndPermit in lib/hooks/swap/useSwapApproval, not under src/)
derives a single ApprovalState, one of not-required, required, pending,
permit-available, and presence of a PendingApprovalHash in the registry
implies ApprovalState = pending. -/
inductive ApprovalState where
  | notRequired
  | required
  | pending
  | permitAvailable
deriving DecidableEq, Repr

/-- Modelled from the spec: the ApprovalState derived from the
pending-transaction registry lookup for (input token, spender) and the
allowance check; a present registry hash forces the pending state
regardless of the concurrent allowance check. -/
def resolvedApprovalState (registryHash : Option Nat) (allowanceInsufficient : Bool) :
    ApprovalState :=
  match registryHash with
  | some _ => ApprovalState.pending
  | none =>
    if allowanceInsufficient then ApprovalState.required else ApprovalState.notRequired

/-- Modelled from the spec: notApproved as reported by the
AllowanceAndPermitService, true exactly in the required state. -/
def resolvedNotApproved (registryHash : Option Nat) (allowanceInsufficient : Bool) : Bool :=
  decide (resolvedApprovalState registryHash allowanceInsufficient = ApprovalState.required)

/-- Modelled from the spec: pendingApproval as reported by the
AllowanceAndPermitService, true exactly in the pending state. -/
def resolvedPendingApproval (registryHash : Option Nat) (allowanceInsufficient : Bool) : Bool :=
  decide (resolvedApprovalState registryHash allowanceInsufficient = ApprovalState.pending)

/-- The button derivation with the resolver outputs wired to the
pending-transaction registry, as in the component: approvalHash is the
registry lookup for (input token, spender) and notApproved and
pendingApproval come from the resolved ApprovalState. -/
def actionPropsFromRegistry (registryHash : Option Nat) (allowanceInsufficient : Bool)
    (i : ActionPropsInput) : Option ActionButtonOverride :=
  actionProps { i with
    notApproved := resolvedNotApproved registryHash allowanceInsufficient
    pendingApproval := resolvedPendingApproval registryHash allowanceInsufficient
    approvalHash := registryHash }

/-- Recognizer for the plain disabled state (insufficient funds or
blocked): disabled override with no action descriptor. -/
def isBlockedState (o : ActionButtonOverride) : Bool :=
  o.disabled && o.action.isNone

/-- Recognizer for the needs-approval state: enabled, with an action
descriptor carrying an allow-first or approve-first message and no icon. -/
def isNeedsApprovalState (o : ActionButtonOverride) : Bool :=
  !o.disabled &&
    (match o.action with
     | some a =>
       a.icon.isNone &&
         (match a.message with
          | Message.allowSymbolFirst _ => true
          | Message.approveSymbolFirst _ => true
          | Message.approvalPendingLink _ => false)
     | none => false)

/-- Recognizer for the approval-pending state: disabled, with an action
descriptor carrying a block-explorer link message and a spinner icon. -/
def isApprovalPendingState (o : ActionButtonOverride) : Bool :=
  o.disabled &&
    (match o.action with
     | some a =>
       (a.icon == some Icon.spinner) &&
         (match a.message with
          | Message.approvalPendingLink _ => true
          | Message.allowSymbolFirst _ => false
          | Message.approveSymbolFirst _ => false)
     | none => false)

/-- Recognizer for the ready state: the empty override, neither disabled
nor carrying an action descriptor. -/
def isReadyState (o : ActionButtonOverride) : Bool :=
  !o.disabled && o.action.isNone

/-- How many of the four state recognizers accept the override. -/
def stateCount (o : ActionButtonOverride) : Nat :=
  (isBlockedState o).toNat + (isNeedsApprovalState o).toNat
    + (isApprovalPendingState o).toNat + (isReadyState o).toNat

/-- Every override actually produced by actionProps is accepted by
exactly one of the four state recognizers. -/
theorem actionProps_stateCount (i : ActionPropsInput) (o : ActionButtonOverride)
    (h : actionProps i = some o) : stateCount o = 1 := by
  unfold actionProps at h
  split at h
  · cases h
    rfl
  · split at h
    · split at h
      · exact absurd h (by simp)
      · cases h
        cases hsp : i.supportsPermit <;> simp [hsp, stateCount, isBlockedState,
          isNeedsApprovalState, isApprovalPendingState, isReadyState]
    · split at h
      · cases h
        rfl
      · cases h
        rfl

/-- When the needs-approval branch can satisfy its invariant (a currency
is available), actionProps always returns an override. -/
theorem actionProps_total (i : ActionPropsInput)
    (h : i.notApproved = true →
      (i.inputCurrency.orElse (fun _ => i.approvalCurrencyAmount.map (·.currency))).isSome) :
    (actionProps i).isSome := by
  unfold actionProps
  split
  · rfl
  · split
    · rename_i hna
      have hcur := h hna
      cases hc : i.inputCurrency.orElse (fun _ => i.approvalCurrencyAmount.map (·.currency)) with
      | none => rw [hc] at hcur; simp at hcur
      | some currency => rfl
    · split
      · rfl
      · rfl

/-- C1, counterexample: the claim also covers the no-op case, but with
the swap callback absent the optional chain swapCallback?.() short
circuits the whole then-catch-finally chain, so onConfirm leaves the
activeTrade snapshot in place and the dialog does not close. -/
theorem onConfirm_noop_keeps_activeTrade :
    (onConfirm none TradeType.exactInput none none
      { displayTxHash := none, txLog := [], activeTrade := some { id := 7 },
        loggedErrors := 0 }).activeTrade ≠ none := by
  decide

/-- C1, amended: after onConfirm with a present swap callback, whether
the submission resolves or rejects, the activeTrade snapshot is cleared
by the finally handler; when the callback is absent the optional chain
short-circuits and the whole state, activeTrade included, is unchanged. -/
theorem onConfirm_clears_activeTrade_after_submission (outcome : SwapOutcome)
    (tradeType : TradeType) (ia oa : Option CurrencyAmount) (s : ConfirmState) :
    (onConfirm (some outcome) tradeType ia oa s).activeTrade = none ∧
    onConfirm none tradeType ia oa s = s := by
  constructor
  · cases outcome with
    | err => rfl
    | ok r => cases ia <;> cases oa <;> rfl
  · rfl

/-- C2: whenever the registry holds an approval hash for the input token
and spender, and no earlier guard disables the button, the derived state
is approval-pending regardless of the allowance check: the override is
disabled and its descriptor links to the pending hash, shows the spinner
and still carries handleApproveOrPermit. -/
theorem registry_hash_forces_approval_pending (h : Nat) (allowanceInsufficient : Bool)
    (i : ActionPropsInput)
    (h1 : i.disabled = false) (h2 : chainIdFalsy i.chainId = false)
    (h3 : i.loadingSignature = false)
    (h4 : insufficientFunds i.inputCurrencyAmount i.inputCurrencyBalance = false) :
    actionPropsFromRegistry (some h) allowanceInsufficient i
      = some { disabled := true
               action := some { message := Message.approvalPendingLink (some h)
                                icon := some Icon.spinner
                                onClick := ClickHandler.handleApproveOrPermit
                                children := Label.approve } } := by
  simp [actionPropsFromRegistry, actionProps, resolvedNotApproved, resolvedPendingApproval,
    resolvedApprovalState, h1, h2, h3, h4]

/-- Witness for C2 at a concrete registry hash and inputs. -/
theorem registry_hash_forces_approval_pending_witness :
    actionPropsFromRegistry (some 5) true
      { disabled := false, chainId := some 1, loadingSignature := false,
        inputCurrencyAmount := some { currency := { symbol := 2, isToken := true }, amount := 100 },
        inputCurrencyBalance := some { currency := { symbol := 2, isToken := true }, amount := 200 },
        notApproved := false, pendingApproval := false, supportsPermit := false,
        inputCurrency := some { symbol := 2, isToken := true },
        approvalCurrencyAmount := none, approvalHash := none }
      = some { disabled := true
               action := some { message := Message.approvalPendingLink (some 5)
                                icon := some Icon.spinner
                                onClick := ClickHandler.handleApproveOrPermit
                                children := Label.approve } } :=
  registry_hash_forces_approval_pending 5 true _ rfl rfl rfl (by decide)

/-- C3: a rejected submission leaves the transaction log and the display
hash untouched; the failure is swallowed (the catch handler only logs,
modelled by the loggedErrors counter) and the call returns normally. -/
theorem onConfirm_failure_swallowed (tradeType : TradeType)
    (ia oa : Option CurrencyAmount) (s : ConfirmState) :
    (onConfirm (some SwapOutcome.err) tradeType ia oa s).txLog = s.txLog ∧
    (onConfirm (some SwapOutcome.err) tradeType ia oa s).displayTxHash = s.displayTxHash ∧
    (onConfirm (some SwapOutcome.err) tradeType ia oa s).loggedErrors = s.loggedErrors + 1 :=
  ⟨rfl, rfl, rfl⟩

/-- C4: a resolved submission with both amounts present publishes the
transaction hash to the display slot and appends exactly one SWAP record
tagged with the trade type and the input and output amounts; with either
amount absent the invariant aborts the recording and the log is
unchanged. -/
theorem onConfirm_success_records_swap (resp : TxResponse) (tradeType : TradeType)
    (ia oa : CurrencyAmount) (ia2 oa2 : Option CurrencyAmount) (s : ConfirmState) :
    (onConfirm (some (SwapOutcome.ok resp)) tradeType (some ia) (some oa) s).displayTxHash
        = some resp.hash ∧
    (onConfirm (some (SwapOutcome.ok resp)) tradeType (some ia) (some oa) s).txLog
        = s.txLog ++ [{ response := resp, type := TransactionType.SWAP, tradeType := tradeType,
                        inputCurrencyAmount := ia, outputCurrencyAmount := oa }] ∧
    (onConfirm (some (SwapOutcome.ok resp)) tradeType none oa2 s).txLog = s.txLog ∧
    (onConfirm (some (SwapOutcome.ok resp)) tradeType ia2 none s).txLog = s.txLog := by
  refine ⟨rfl, rfl, ?_, ?_⟩
  · cases oa2 <;> rfl
  · cases ia2 <;> rfl

/-- C5: for every combination of resolver inputs, provided the
needs-approval branch can satisfy its invariant (a currency is available
when notApproved holds), the derived override exists and is accepted by
exactly one of the four state recognizers: blocked, needs-approval,
approval-pending, ready. -/
theorem actionProps_exactly_one_state (i : ActionPropsInput)
    (h : i.notApproved = true →
      (i.inputCurrency.orElse (fun _ => i.approvalCurrencyAmount.map (·.currency))).isSome) :
    ∃ o, actionProps i = some o ∧ stateCount o = 1 := by
  obtain ⟨o, ho⟩ := Option.isSome_iff_exists.mp (actionProps_total i h)
  exact ⟨o, ho, actionProps_stateCount i o ho⟩

/-- Witness for C5 at a concrete input in the needs-approval branch. -/
theorem actionProps_exactly_one_state_witness :
    ∃ o, actionProps
      { disabled := false, chainId := some 1, loadingSignature := false,
        inputCurrencyAmount := none, inputCurrencyBalance := none,
        notApproved := true, pendingApproval := false, supportsPermit := true,
        inputCurrency := some { symbol := 3, isToken := true },
        approvalCurrencyAmount := none, approvalHash := none } = some o ∧ stateCount o = 1 :=
  actionProps_exactly_one_state _ (by decide)

/-- C6: caller-disabled, unknown chain, an in-flight signature request
or an input balance below the required input amount each force the plain
disabled override with no action descriptor. -/
theorem guard_disables_button (i : ActionPropsInput)
    (h : i.disabled = true ∨ i.chainId = none ∨ i.loadingSignature = true ∨
      (∃ amt bal, i.inputCurrencyAmount = some amt ∧ i.inputCurrencyBalance = some bal ∧
        bal.lessThan amt = true)) :
    actionProps i = some { disabled := true } := by
  have hg : (i.disabled || chainIdFalsy i.chainId || i.loadingSignature ||
      insufficientFunds i.inputCurrencyAmount i.inputCurrencyBalance) = true := by
    rcases h with h | h | h | ⟨amt, bal, ha, hb, hlt⟩
    · simp [h]
    · simp [h, chainIdFalsy]
    · simp [h]
    · simp [insufficientFunds, ha, hb, hlt]
  simp [actionProps, hg]

/-- Witness for C6: a balance of 50 against a required 100 disables the
button even with approval outstanding and permit support. -/
theorem guard_disables_button_witness :
    actionProps
      { disabled := false, chainId := some 1, loadingSignature := false,
        inputCurrencyAmount := some { currency := { symbol := 7, isToken := true }, amount := 100 },
        inputCurrencyBalance := some { currency := { symbol := 7, isToken := true }, amount := 50 },
        notApproved := true, pendingApproval := true, supportsPermit := true,
        inputCurrency := some { symbol := 7, isToken := true },
        approvalCurrencyAmount := none, approvalHash := none }
      = some { disabled := true } :=
  guard_disables_button _
    (Or.inr (Or.inr (Or.inr
      ⟨{ currency := { symbol := 7, isToken := true }, amount := 100 },
       { currency := { symbol := 7, isToken := true }, amount := 50 },
       rfl, rfl, by decide⟩)))

/-- C7: the live-trade update effect replaces a set snapshot with the
new live trade and leaves an absent snapshot absent, so it never creates
a snapshot on its own; only the review click does, storing the live
trade present at click time. -/
theorem activeTrade_update_policy (live : Option Trade) (t : Trade) :
    updateActiveTrade none live = none ∧ updateActiveTrade (some t) live = live ∧
    reviewSwapClick live = live :=
  ⟨rfl, rfl, rfl⟩

/-- C8: the confirmation dialog subtree is rendered exactly when the
activeTrade snapshot is set, it shows the snapshot trade together with
the confirm action, and closing the dialog clears activeTrade. -/
theorem dialog_iff_activeTrade (a : Option Trade) (t : Trade) :
    (renderDialog a).isSome = a.isSome ∧
    renderDialog (some t) = some { trade := t, hasConfirmAction := true } ∧
    dialogOnClose a = none := by
  refine ⟨?_, rfl, rfl⟩
  cases a <;> rfl

/-- C9: on a resolved submission the display hash is written before the
amounts invariant is checked: with a missing amount the display slot
already holds the new hash, no record is appended, the thrown invariant
is swallowed by the catch handler (logged only), and finally still
clears the snapshot. -/
theorem onConfirm_hash_written_before_invariant (resp : TxResponse) (tradeType : TradeType)
    (ia oa : Option CurrencyAmount) (s : ConfirmState) :
    ((onConfirm (some (SwapOutcome.ok resp)) tradeType none oa s).displayTxHash = some resp.hash ∧
     (onConfirm (some (SwapOutcome.ok resp)) tradeType none oa s).txLog = s.txLog ∧
     (onConfirm (some (SwapOutcome.ok resp)) tradeType none oa s).loggedErrors
        = s.loggedErrors + 1 ∧
     (onConfirm (some (SwapOutcome.ok resp)) tradeType none oa s).activeTrade = none) ∧
    ((onConfirm (some (SwapOutcome.ok resp)) tradeType ia none s).displayTxHash = some resp.hash ∧
     (onConfirm (some (SwapOutcome.ok resp)) tradeType ia none s).txLog = s.txLog ∧
     (onConfirm (some (SwapOutcome.ok resp)) tradeType ia none s).loggedErrors
        = s.loggedErrors + 1 ∧
     (onConfirm (some (SwapOutcome.ok resp)) tradeType ia none s).activeTrade = none) := by
  constructor
  · cases oa <;> exact ⟨rfl, rfl, rfl, rfl⟩
  · cases ia <;> exact ⟨rfl, rfl, rfl, rfl⟩

/-- C10: the insufficient-funds check needs both the input amount and
the input balance; when either is absent that check does not disable the
button and the derivation falls through to the approval branches. -/
theorem insufficient_check_needs_both (i : ActionPropsInput)
    (h1 : i.disabled = false) (h2 : chainIdFalsy i.chainId = false)
    (h3 : i.loadingSignature = false)
    (h4 : i.inputCurrencyAmount = none ∨ i.inputCurrencyBalance = none) :
    actionProps i = approvalBranches i := by
  have h5 : insufficientFunds i.inputCurrencyAmount i.inputCurrencyBalance = false := by
    rcases h4 with h | h
    · simp [insufficientFunds, h]
    · cases i.inputCurrencyAmount <;> simp [insufficientFunds, h]
  simp only [actionProps, approvalBranches, h1, h2, h3, h5, Bool.or_self, Bool.or_false,
    Bool.false_or]
  simp

/-- Witness for C10: with the balance not yet loaded, the override
equals the approval-branch derivation (here the pending descriptor). -/
theorem insufficient_check_needs_both_witness :
    actionProps
      { disabled := false, chainId := some 1, loadingSignature := false,
        inputCurrencyAmount := some { currency := { symbol := 4, isToken := true }, amount := 100 },
        inputCurrencyBalance := none,
        notApproved := false, pendingApproval := true, supportsPermit := false,
        inputCurrency := some { symbol := 4, isToken := true },
        approvalCurrencyAmount := none, approvalHash := some 9 }
      = approvalBranches
      { disabled := false, chainId := some 1, loadingSignature := false,
        inputCurrencyAmount := some { currency := { symbol := 4, isToken := true }, amount := 100 },
        inputCurrencyBalance := none,
        notApproved := false, pendingApproval := true, supportsPermit := false,
        inputCurrency := some { symbol := 4, isToken := true },
        approvalCurrencyAmount := none, approvalHash := some 9 } :=
  insufficient_check_needs_both _ rfl rfl rfl (Or.inr rfl)

end SwapButton
